import Mathlib

/-!
Verification development for the npm-replicate-follower library.

The library contains two pollers ("Followers"):
* `couch/replicate.go` — a sequence-feed follower over a CouchDB-style
  `_changes` endpoint, with a `uint64` cursor (`Follower.Sequence`);
* `rss/poll.go` — a window-feed follower over an RSS endpoint, with a
  most-recently-seen-item cursor (`Follower.latest`).

The HTTP round trips are modelled by `FetchOutcome` values enumerating the
point at which a request can fail (request construction, transport,
status code, body decode) or succeed with a decoded body; the pure logic
of `getChanges`, `coldStartSequence` and `Connect` is translated directly
from the Go source.  The scheduler goroutine shared by both `Connect`
implementations is modelled in the `scheduler` namespace as a
deterministic trace function over an explicit cancellation-observation
oracle.
-/

deriving instance DecidableEq for Except

namespace couch

/-- One revision marker, from `CouchRevision` in replicate.go. -/
structure CouchRevision where
  Rev : String
deriving Repr, DecidableEq

/-- One change event, from `CouchDocumentChange` in replicate.go. -/
structure CouchDocumentChange where
  Seq : Nat
  ID : String
  Changes : List CouchRevision
  Deleted : Bool
deriving Repr, DecidableEq

/-- Decoded body of a `_changes` response, from `CouchResponse` in replicate.go. -/
structure CouchResponse where
  Results : List CouchDocumentChange
  LastSequence : Nat
deriving Repr, DecidableEq

/-- Errors produced by the cold-start path `coldStartSequence`, one
constructor per `return fmt.Errorf(...)`/`return ErrInvalidUpdateSequence`
site in replicate.go. -/
inductive ColdStartError where
  | creatingRequest
  | doingRequest
  | unexpectedStatus (code : Nat)
  | decodingBody
  | invalidUpdateSequence
deriving Repr, DecidableEq

/-- The sentinel error `ErrInvalidUpdateSequence` from replicate.go
(the spec calls it `ErrInvalidSequence`). -/
def ErrInvalidUpdateSequence : ColdStartError := ColdStartError.invalidUpdateSequence

/-- Errors produced by `getChanges` in replicate.go, one constructor per
error-return site; each steady-state constructor carries the cursor value
(`s.Sequence.Load()`) interpolated into the wrapped error message.
`coldStartFailed` models the wrap `fmt.Errorf("cold start failed: %w", err)`
in `Connect`. -/
inductive CouchError where
  | creatingRequest (seq : Nat)
  | doingRequest (seq : Nat)
  | unexpectedStatus (seq : Nat) (code : Nat)
  | decodingBody (seq : Nat)
  | coldStartFailed (e : ColdStartError)
deriving Repr, DecidableEq

/-- Outcome of the HTTP round trip inside `getChanges`: the request may
fail to build, the transport may fail, or a response arrives with a
status code and a body that either decodes to a `CouchResponse` or not. -/
inductive FetchOutcome where
  | requestError
  | transportError
  | response (status : Nat) (body : Option CouchResponse)
deriving Repr, DecidableEq

/-- Embeds `getChanges` from replicate.go.  Input: the current value of
the atomic cursor `s.Sequence` and the round-trip outcome.  Output: the
returned `([]CouchDocumentChange, error)` pair together with the cursor
value after the call (the source runs `s.Sequence.Swap(cr.LastSequence)`
exactly on the success path, after a successful decode). -/
def getChanges (seq : Nat) (o : FetchOutcome) :
    Except CouchError (List CouchDocumentChange) × Nat :=
  match o with
  | FetchOutcome.requestError => (Except.error (CouchError.creatingRequest seq), seq)
  | FetchOutcome.transportError => (Except.error (CouchError.doingRequest seq), seq)
  | FetchOutcome.response status body =>
    if status ≠ 200 then
      (Except.error (CouchError.unexpectedStatus seq status), seq)
    else
      match body with
      | none => (Except.error (CouchError.decodingBody seq), seq)
      | some cr => (Except.ok cr.Results, cr.LastSequence)

/-- Outcome of the HTTP round trip inside `coldStartSequence`: the body,
when it decodes, is the `update_seq` field. -/
inductive ColdStartOutcome where
  | requestError
  | transportError
  | response (status : Nat) (body : Option Nat)
deriving Repr, DecidableEq

/-- Embeds `coldStartSequence` from replicate.go: resolve the starting
cursor from the registry metadata endpoint; a decoded `update_seq` of `0`
is rejected with `ErrInvalidUpdateSequence`; on success the returned
value is stored into `s.Sequence`. -/
def coldStartSequence (o : ColdStartOutcome) : Except ColdStartError Nat :=
  match o with
  | ColdStartOutcome.requestError => Except.error ColdStartError.creatingRequest
  | ColdStartOutcome.transportError => Except.error ColdStartError.doingRequest
  | ColdStartOutcome.response status body =>
    if status ≠ 200 then
      Except.error (ColdStartError.unexpectedStatus status)
    else
      match body with
      | none => Except.error ColdStartError.decodingBody
      | some u =>
        if u = 0 then Except.error ErrInvalidUpdateSequence
        else Except.ok u

/-- The cursor state of the sequence-feed `Follower` (the other fields —
http client, user agent, polling interval — do not affect the claims). -/
structure Follower where
  Sequence : Nat
deriving Repr, DecidableEq

/-- Embeds `NewFollower` from replicate.go: the `atomic.Uint64` cursor
starts at its zero value. -/
def NewFollower : Follower := { Sequence := 0 }

/-- Embeds `Since` from replicate.go: store the given sequence. -/
def Follower.Since (s : Follower) (sequence : Nat) : Follower :=
  { s with Sequence := sequence }

/-- Result type of the `Connect` prelude, before the polling goroutine
loop: either the connection aborts (cold start failed) after emitting the
listed Results and closing the channel, or the polling loop starts with
the given cursor. -/
inductive ConnectStart where
  | aborted (emitted : List (Except CouchError CouchDocumentChange))
  | looping (startSeq : Nat)
deriving Repr, DecidableEq

/-- Embeds the prelude of `Connect` from replicate.go: when the stored
cursor is `0`, run `coldStartSequence` once; on failure emit exactly one
error Result wrapped as cold-start failure and close the channel; on
success (or when the cursor is nonzero) enter the polling loop with the
stored cursor. -/
def Follower.Connect (s : Follower) (cold : ColdStartOutcome) : ConnectStart :=
  if s.Sequence = 0 then
    match coldStartSequence cold with
    | Except.error e => ConnectStart.aborted [Except.error (CouchError.coldStartFailed e)]
    | Except.ok n => ConnectStart.looping n
  else
    ConnectStart.looping s.Sequence

end couch

namespace rss

/-- One RSS entry, from `Item` in poll.go (the decoded XML fields). -/
structure Item where
  Title : String
  Link : String
  PubDate : String
  Creator : String
deriving Repr, DecidableEq

/-- Embeds `Item.Is` from poll.go: field-by-field comparison of creator,
title and raw pubDate string, with early `return false`; `Link` is never
inspected and the pubDate string is never parsed. -/
def Item.Is (i other : Item) : Bool :=
  if i.Creator ≠ other.Creator then false
  else if i.Title ≠ other.Title then false
  else if i.PubDate ≠ other.PubDate then false
  else true

/-- Errors produced by `getChanges` in poll.go, one constructor per
error-return site. -/
inductive RssError where
  | creatingRequest
  | doingRequest
  | unexpectedStatus (code : Nat)
  | decodingBody
  | emptyFeed
deriving Repr, DecidableEq

/-- The sentinel error `ErrEmptyFeed` from poll.go. -/
def ErrEmptyFeed : RssError := RssError.emptyFeed

/-- Outcome of the HTTP round trip inside the RSS `getChanges`: the body,
when it decodes, is the channel's item list (`rr.Channel.Items`). -/
inductive FetchOutcome where
  | requestError
  | transportError
  | response (status : Nat) (body : Option (List Item))
deriving Repr, DecidableEq

/-- Embeds `getChanges` from poll.go.  Input: the stored cursor
`f.latest` (an optional Item) and the round-trip outcome.  Output: the
returned `([]Item, error)` pair and the cursor value after the call.
On success with a non-empty window: scan the descending window for the
first item `Is`-equal to the cursor (`truncateIndex` defaults to the
window length), keep the prefix before that index, return the empty list
with the cursor untouched if the prefix is empty, and otherwise store the
window's head as the new cursor and return the prefix reversed. -/
def getChanges (latest : Option Item) (o : FetchOutcome) :
    Except RssError (List Item) × Option Item :=
  match o with
  | FetchOutcome.requestError => (Except.error RssError.creatingRequest, latest)
  | FetchOutcome.transportError => (Except.error RssError.doingRequest, latest)
  | FetchOutcome.response status body =>
    if status ≠ 200 then
      (Except.error (RssError.unexpectedStatus status), latest)
    else
      match body with
      | none => (Except.error RssError.decodingBody, latest)
      | some items =>
        if items.length = 0 then (Except.error RssError.emptyFeed, latest)
        else
          let truncateIndex :=
            match latest with
            | none => items.length
            | some x => items.findIdx (fun item => item.Is x)
          let newItems := items.take truncateIndex
          if newItems.length = 0 then (Except.ok [], latest)
          else (Except.ok newItems.reverse, items.head?)

end rss

namespace scheduler

/-!
Both `Connect` implementations spawn the same goroutine shape:

```
defer close(out)
fetch := func() {
  batch, err := getChanges(reqCtx)
  if err != nil { select { out <- err | <-ctx.Done() }; return }
  for _, item := range batch { select { out <- item | <-ctx.Done(): return } }
}
fetch()
for { select { <-ctx.Done(): return | <-ticker.C: fetch() } }
```

The model below determinises this loop: every `select` that consults
`ctx.Done()` is an *observation point*, numbered consecutively by a
counter; the cancellation context is an oracle `c : Option Nat` giving
the first observation index at which `ctx.Done()` is observed (sticky
from then on; `none` means cancellation is never observed).  Each
successful channel send is recorded with the observation index of its
offer.  A run consumes the initial fetch outcome plus one further fetch
outcome per ticker tick and ends `closed` (the deferred `close(out)` ran)
or `blocked` (the finite tick supply ran out with the loop still waiting
on an uncancelled `select`).
-/

/-- Whether the cancellation oracle `c` reports `ctx.Done()` as observed
at observation index `i` (sticky: once observed, observed forever). -/
def doneAt : Option Nat → Nat → Bool
  | none, _ => false
  | some cv, i => cv ≤ i

/-- The per-item offer loop of `fetch`: offer each batch item on the
channel; if `ctx.Done()` is observed at an offer, stop without sending.
Returns the sends (offer index, item) and the next observation index. -/
def offerItems (c : Option Nat) : Nat → List α → List (Nat × α) × Nat
  | i, [] => ([], i)
  | i, x :: xs =>
    if doneAt c i then ([], i + 1)
    else
      let r := offerItems c (i + 1) xs
      ((i, x) :: r.1, r.2)

/-- One run of the `fetch` closure, given the value `getChanges`
returned: an error is offered once (abandoned if cancellation is
observed at that offer); a batch is offered item by item. -/
def fetchRun (c : Option Nat) (i : Nat) :
    Except ε (List α) → List (Nat × Except ε α) × Nat
  | Except.error e => if doneAt c i then ([], i + 1) else ([(i, Except.error e)], i + 1)
  | Except.ok items =>
    let r := offerItems c i items
    (r.1.map (fun p => (p.1, Except.ok p.2)), r.2)

/-- How a finite run of the scheduler loop ends: `closed` when the
goroutine returned and the deferred `close(out)` ran, `blocked` when the
tick supply is exhausted and the loop is still waiting on its `select`
with cancellation never observed. -/
inductive RunEnd where
  | closed
  | blocked
deriving Repr, DecidableEq

/-- The `for { select }` loop: each iteration is one observation point;
if cancellation is observed the goroutine returns (channel closed),
otherwise a tick fires and `fetch` runs with the next outcome.  `G` is
the `getChanges` step: from the follower state and a round-trip outcome
to the returned value and the updated state.  When the tick supply runs
out, a set oracle still closes the loop (the `select` would observe the
sticky `ctx.Done()` once it fires); an unset oracle leaves it blocked. -/
def runLoop (G : σ → ω → Except ε (List α) × σ) (c : Option Nat) :
    Nat → σ → List ω → List (Nat × Except ε α) × σ × RunEnd
  | _, st, [] => ([], st, if c.isSome then RunEnd.closed else RunEnd.blocked)
  | i, st, ev :: evs =>
    if doneAt c i then ([], st, RunEnd.closed)
    else
      let gr := G st ev
      let fr := fetchRun c (i + 1) gr.1
      let rr := runLoop G c fr.2 gr.2 evs
      (fr.1 ++ rr.1, rr.2.1, rr.2.2)

/-- A whole run of the `Connect` goroutine: the immediate `fetch()` call
(no leading `select`), then the ticker loop over the remaining outcomes. -/
def connectRun (G : σ → ω → Except ε (List α) × σ) (c : Option Nat)
    (st : σ) (first : ω) (events : List ω) :
    List (Nat × Except ε α) × σ × RunEnd :=
  let gr := G st first
  let fr := fetchRun c 0 gr.1
  let rr := runLoop G c fr.2 gr.2 events
  (fr.1 ++ rr.1, rr.2.1, rr.2.2)

end scheduler

namespace scheduler

/-- Sends recorded by the per-item offer loop all happen at observation
indices strictly before the cancellation point. -/
theorem offerItems_sends_lt {α : Type} (cv : Nat) (xs : List α) :
    ∀ i, ∀ p ∈ (offerItems (some cv) i xs).1, p.1 < cv := by
  induction xs with
  | nil =>
    intro i p hp
    simp [offerItems] at hp
  | cons x xs ih =>
    intro i p hp
    by_cases h : cv ≤ i
    · simp [offerItems, doneAt, h] at hp
    · simp only [offerItems, doneAt, decide_eq_true_eq, if_pos, if_neg, h, ite_false,
        Bool.false_eq_true] at hp
      rcases List.mem_cons.mp hp with rfl | hmem
      · exact Nat.lt_of_not_le h
      · exact ih (i + 1) p hmem

/-- Sends recorded by one `fetch` run all happen at observation indices
strictly before the cancellation point. -/
theorem fetchRun_sends_lt {ε α : Type} (cv i : Nat) (r : Except ε (List α)) :
    ∀ p ∈ (fetchRun (some cv) i r).1, p.1 < cv := by
  intro p hp
  match r with
  | Except.error e =>
    by_cases h : cv ≤ i
    · simp [fetchRun, doneAt, h] at hp
    · simp [fetchRun, doneAt, h] at hp
      rw [hp]
      exact Nat.lt_of_not_le h
  | Except.ok items =>
    simp only [fetchRun, List.mem_map] at hp
    obtain ⟨q, hq, rfl⟩ := hp
    exact offerItems_sends_lt cv items i q hq

/-- With a set cancellation oracle, the ticker loop always ends with the
channel closed, and every send happens strictly before the cancellation
point. -/
theorem runLoop_cancelled {σ ω ε α : Type} (G : σ → ω → Except ε (List α) × σ) (cv : Nat)
    (evs : List ω) : ∀ i st,
    (runLoop G (some cv) i st evs).2.2 = RunEnd.closed ∧
    ∀ p ∈ (runLoop G (some cv) i st evs).1, p.1 < cv := by
  induction evs with
  | nil =>
    intro i st
    refine ⟨by simp [runLoop], ?_⟩
    intro p hp
    simp [runLoop] at hp
  | cons ev evs ih =>
    intro i st
    by_cases h : cv ≤ i
    · constructor
      · simp [runLoop, doneAt, h]
      · intro p hp
        simp [runLoop, doneAt, h] at hp
    · simp only [runLoop, doneAt, decide_eq_true_eq, if_neg, h, ite_false,
        Bool.false_eq_true]
      constructor
      · exact (ih _ _).1
      · intro p hp
        rcases List.mem_append.mp hp with h1 | h2
        · exact fetchRun_sends_lt cv (i + 1) _ p h1
        · exact (ih _ _).2 p h2

/-- With a set cancellation oracle, a whole `Connect` goroutine run ends
with the channel closed, and every send happens strictly before the
cancellation point. -/
theorem connectRun_cancelled {σ ω ε α : Type} (G : σ → ω → Except ε (List α) × σ) (cv : Nat)
    (st : σ) (first : ω) (events : List ω) :
    (connectRun G (some cv) st first events).2.2 = RunEnd.closed ∧
    ∀ p ∈ (connectRun G (some cv) st first events).1, p.1 < cv := by
  simp only [connectRun]
  constructor
  · exact (runLoop_cancelled G cv events _ _).1
  · intro p hp
    rcases List.mem_append.mp hp with h1 | h2
    · exact fetchRun_sends_lt cv 0 _ p h1
    · exact (runLoop_cancelled G cv events _ _).2 p h2

end scheduler

/-- Claim C1: for the sequence-feed Follower, a successful `getChanges`
fetch (request built, transport OK, status 200, body decodes) stores the
response's `last_seq` as the new cursor — even when the response carries
zero events — while every failing fetch leaves the cursor unchanged. -/
theorem C1_seq_fetch_cursor (seq : Nat) (o : couch.FetchOutcome) :
    (∀ cr, o = couch.FetchOutcome.response 200 (some cr) →
      couch.getChanges seq o = (Except.ok cr.Results, cr.LastSequence)) ∧
    (∀ e, (couch.getChanges seq o).1 = Except.error e →
      (couch.getChanges seq o).2 = seq) := by
  constructor
  · intro cr h
    subst h
    simp [couch.getChanges]
  · intro e h
    match o with
    | couch.FetchOutcome.requestError => rfl
    | couch.FetchOutcome.transportError => rfl
    | couch.FetchOutcome.response status body =>
      by_cases hs : status = 200
      · subst hs
        match body with
        | none => rfl
        | some cr => simp [couch.getChanges] at h
      · simp [couch.getChanges, hs]

/-- Witness for C1 at the spec's concrete scenario: cursor 1000, one
event with seq 1001 and last_seq 1001; and an unchanged cursor on a
transport failure. -/
theorem C1_seq_fetch_cursor_witness :
    couch.getChanges 1000
        (couch.FetchOutcome.response 200 (some ⟨[⟨1001, "foo", [⟨"2-aaa"⟩], false⟩], 1001⟩))
      = (Except.ok [⟨1001, "foo", [⟨"2-aaa"⟩], false⟩], 1001)
    ∧ (couch.getChanges 1000 couch.FetchOutcome.transportError).2 = 1000 :=
  ⟨(C1_seq_fetch_cursor 1000 _).1 _ rfl,
   (C1_seq_fetch_cursor 1000 _).2 (couch.CouchError.doingRequest 1000) rfl⟩

/-- Claim C3: a cold-start metadata response with `update_seq = 0` yields
`ErrInvalidUpdateSequence` (the spec's `ErrInvalidSequence`), and every
cold-start failure makes `Connect` emit exactly one error Result (the
failure wrapped as a cold-start failure) and close the channel without
ever entering the polling loop; the single `ColdStartOutcome` argument
reflects that the path runs exactly one attempt, with no retry. -/
theorem C3_cold_start_failure (o : couch.ColdStartOutcome) (e : couch.ColdStartError)
    (h : couch.coldStartSequence o = Except.error e) :
    couch.coldStartSequence (couch.ColdStartOutcome.response 200 (some 0))
      = Except.error couch.ErrInvalidUpdateSequence
    ∧ couch.NewFollower.Connect o
      = couch.ConnectStart.aborted [Except.error (couch.CouchError.coldStartFailed e)] := by
  refine ⟨rfl, ?_⟩
  simp [couch.Follower.Connect, couch.NewFollower, h]

/-- Witness for C3 at a transport failure during cold start. -/
theorem C3_cold_start_failure_witness :
    couch.coldStartSequence (couch.ColdStartOutcome.response 200 (some 0))
      = Except.error couch.ErrInvalidUpdateSequence
    ∧ couch.NewFollower.Connect couch.ColdStartOutcome.transportError
      = couch.ConnectStart.aborted
          [Except.error (couch.CouchError.coldStartFailed couch.ColdStartError.doingRequest)] :=
  C3_cold_start_failure couch.ColdStartOutcome.transportError couch.ColdStartError.doingRequest rfl

/-- Claim C4 counterexample: the claim says the stored cursor is
non-decreasing across every operation for every response the upstream may
return, but `getChanges` swaps in the response's `last_seq`
unconditionally: with cursor 5, a successful response with `last_seq = 3`
drops the cursor to 3. -/
theorem C4_counterexample :
    (couch.getChanges 5 (couch.FetchOutcome.response 200 (some ⟨[], 3⟩))).2 = 3
    ∧ ¬ 5 ≤ (couch.getChanges 5 (couch.FetchOutcome.response 200 (some ⟨[], 3⟩))).2 := by
  constructor
  · rfl
  · decide

/-- Claim C4 (amended): failed fetches leave the cursor unchanged, and a
successful fetch sets it to the response's `last_seq`; hence the cursor
is non-decreasing provided every successful response's `last_seq` is at
least the cursor at the time of the fetch — the code itself does not
enforce monotonicity against a decreasing upstream. -/
theorem C4_amended_monotone (seq : Nat) (o : couch.FetchOutcome)
    (h : ∀ cr, o = couch.FetchOutcome.response 200 (some cr) → seq ≤ cr.LastSequence) :
    seq ≤ (couch.getChanges seq o).2 := by
  match o with
  | couch.FetchOutcome.requestError => exact Nat.le_refl seq
  | couch.FetchOutcome.transportError => exact Nat.le_refl seq
  | couch.FetchOutcome.response status body =>
    by_cases hs : status = 200
    · subst hs
      match body with
      | none => exact Nat.le_refl seq
      | some cr =>
        have := h cr rfl
        simpa [couch.getChanges] using this
    · simp [couch.getChanges, hs]

/-- Witness for C4 (amended): cursor 2, successful response with
`last_seq = 5`. -/
theorem C4_amended_monotone_witness :
    2 ≤ (couch.getChanges 2 (couch.FetchOutcome.response 200 (some ⟨[], 5⟩))).2 :=
  C4_amended_monotone 2 _ (fun cr hcr => by cases hcr; decide)

/-- Claim C10: `Since(0)` is indistinguishable from never calling
`Since`: on any follower it produces the same `Connect` behaviour as a
fresh follower, and a `Connect` from cursor 0 always goes through
cold-start resolution, which never yields 0 (a zero `update_seq` is
rejected) — so there is no way to explicitly start following from
sequence 0. -/
theorem C10_since_zero_is_unset (cold : couch.ColdStartOutcome) :
    ((couch.NewFollower.Since 0).Connect cold = couch.NewFollower.Connect cold)
    ∧ (∀ f : couch.Follower, (f.Since 0).Connect cold = couch.NewFollower.Connect cold)
    ∧ (∀ n, couch.coldStartSequence cold = Except.ok n →
        0 < n ∧ couch.NewFollower.Connect cold = couch.ConnectStart.looping n)
    ∧ (∀ e, couch.coldStartSequence cold = Except.error e →
        couch.NewFollower.Connect cold
          = couch.ConnectStart.aborted
              [Except.error (couch.CouchError.coldStartFailed e)]) := by
  refine ⟨rfl, fun f => rfl, fun n hn => ⟨?_, ?_⟩, fun e he => ?_⟩
  · match cold with
    | couch.ColdStartOutcome.requestError => simp [couch.coldStartSequence] at hn
    | couch.ColdStartOutcome.transportError => simp [couch.coldStartSequence] at hn
    | couch.ColdStartOutcome.response status body =>
      by_cases hs : status = 200
      · subst hs
        match body with
        | none => simp [couch.coldStartSequence] at hn
        | some u =>
          by_cases hu : u = 0
          · subst hu
            simp [couch.coldStartSequence, couch.ErrInvalidUpdateSequence] at hn
          · simp [couch.coldStartSequence, hu] at hn
            subst hn
            exact Nat.pos_of_ne_zero hu
      · simp [couch.coldStartSequence, hs] at hn
  · simp [couch.Follower.Connect, couch.NewFollower, hn]
  · simp [couch.Follower.Connect, couch.NewFollower, he]

/-- Witness for C10: cold start resolving to 42. -/
theorem C10_since_zero_is_unset_witness :
    0 < 42
    ∧ couch.NewFollower.Connect (couch.ColdStartOutcome.response 200 (some 42))
        = couch.ConnectStart.looping 42 :=
  (C10_since_zero_is_unset (couch.ColdStartOutcome.response 200 (some 42))).2.2.1 42 rfl

/-- Claim C8: `Item.Is` returns true exactly when creator, title and the
raw publish-date string are all equal as strings; the `Link` field never
affects the result (and no parsed-timestamp comparison is involved —
`Is` only compares the raw strings). -/
theorem C8_item_is_equality (a b : rss.Item) :
    (a.Is b = true ↔ (a.Creator = b.Creator ∧ a.Title = b.Title ∧ a.PubDate = b.PubDate))
    ∧ ∀ l1 l2 : String,
        ({ a with Link := l1 } : rss.Item).Is { b with Link := l2 } = a.Is b := by
  constructor
  · simp only [rss.Item.Is]
    split
    · simp_all
    · split
      · simp_all
      · split
        · simp_all
        · simp_all
  · intro l1 l2
    rfl

/-- Claim C5: a decoded window with zero items makes the RSS `getChanges`
return `ErrEmptyFeed` and leaves the stored cursor unchanged; through the
scheduler's `fetch` closure that error is offered to the channel exactly
once (one send for the poll, absent cancellation). -/
theorem C5_empty_feed (latest : Option rss.Item) :
    rss.getChanges latest (rss.FetchOutcome.response 200 (some []))
      = (Except.error rss.ErrEmptyFeed, latest)
    ∧ scheduler.fetchRun none 0
        (rss.getChanges latest (rss.FetchOutcome.response 200 (some []))).1
      = ([(0, Except.error rss.ErrEmptyFeed)], 1) := by
  exact ⟨rfl, rfl⟩

/-- Claim C7: when the stored cursor item matches the head of the fetched
window, `getChanges` returns the empty list and leaves the cursor
unchanged, so a repeated poll of the same unchanged window again returns
the empty list with the same cursor — the cursor is a fixed point and
polls are idempotent no-ops. -/
theorem C7_head_match_noop (X hd : rss.Item) (tl : List rss.Item)
    (hhead : hd.Is X = true) :
    rss.getChanges (some X) (rss.FetchOutcome.response 200 (some (hd :: tl)))
      = (Except.ok [], some X)
    ∧ rss.getChanges
        (rss.getChanges (some X) (rss.FetchOutcome.response 200 (some (hd :: tl)))).2
        (rss.FetchOutcome.response 200 (some (hd :: tl)))
      = (Except.ok [], some X) := by
  have h1 : rss.getChanges (some X) (rss.FetchOutcome.response 200 (some (hd :: tl)))
      = (Except.ok [], some X) := by
    simp [rss.getChanges, List.findIdx_cons, hhead]
  exact ⟨h1, by rw [h1]; exact h1⟩

/-- Witness for C7: the cursor item itself at the head of the window. -/
theorem C7_head_match_noop_witness :
    rss.getChanges (some ⟨"t1", "l1", "d1", "c1"⟩)
        (rss.FetchOutcome.response 200 (some [⟨"t1", "l1", "d1", "c1"⟩, ⟨"t0", "l0", "d0", "c0"⟩]))
      = (Except.ok [], some ⟨"t1", "l1", "d1", "c1"⟩) :=
  (C7_head_match_noop ⟨"t1", "l1", "d1", "c1"⟩ ⟨"t1", "l1", "d1", "c1"⟩
    [⟨"t0", "l0", "d0", "c0"⟩] (by decide)).1

/-- Claim C6: a non-empty window containing no item `Is`-equal to the
stored cursor item is treated as entirely new: `getChanges` returns the
whole window reversed (ascending chronological order) and stores the
window's head as the new cursor. -/
theorem C6_no_match_whole_window (X hd : rss.Item) (tl : List rss.Item)
    (habs : ∀ it ∈ hd :: tl, it.Is X = false) :
    rss.getChanges (some X) (rss.FetchOutcome.response 200 (some (hd :: tl)))
      = (Except.ok ((hd :: tl).reverse), some hd) := by
  have hfind : (hd :: tl).findIdx (fun item => item.Is X) = (hd :: tl).length :=
    List.findIdx_eq_length_of_false habs
  simp [rss.getChanges, hfind]

/-- Witness for C6: a two-item window, cursor absent. -/
theorem C6_no_match_whole_window_witness :
    rss.getChanges (some ⟨"t9", "l9", "d9", "c9"⟩)
        (rss.FetchOutcome.response 200 (some [⟨"t1", "l1", "d1", "c1"⟩, ⟨"t0", "l0", "d0", "c0"⟩]))
      = (Except.ok [⟨"t0", "l0", "d0", "c0"⟩, ⟨"t1", "l1", "d1", "c1"⟩],
         some ⟨"t1", "l1", "d1", "c1"⟩) :=
  C6_no_match_whole_window ⟨"t9", "l9", "d9", "c9"⟩ ⟨"t1", "l1", "d1", "c1"⟩
    [⟨"t0", "l0", "d0", "c0"⟩] (by decide)

/-- Claim C2: when the stored cursor item X first occurs (by Is-equality)
at index k of a fetched descending window, the RSS `getChanges` returns
exactly the reversal of the window's length-k prefix (k items, ascending
chronological order), whose last element — the item at raw index 0 — is
not Is-equal to X; and when k > 0 the new stored cursor is the head
(index 0) of the original untruncated window. -/
theorem C2_window_dedup (X : rss.Item) (items : List rss.Item) (k : Nat)
    (hk : k < items.length)
    (hfound : (items.get ⟨k, hk⟩).Is X = true)
    (hfirst : ∀ j (hj : j < k), (items.get ⟨j, Nat.lt_trans hj hk⟩).Is X = false) :
    (rss.getChanges (some X) (rss.FetchOutcome.response 200 (some items))).1
        = Except.ok ((items.take k).reverse)
    ∧ ((items.take k).reverse).length = k
    ∧ (∀ y, ((items.take k).reverse).getLast? = some y → y.Is X = false)
    ∧ (0 < k → (rss.getChanges (some X) (rss.FetchOutcome.response 200 (some items))).2
        = items.head?) := by
  have hlen : items.length ≠ 0 := Nat.pos_iff_ne_zero.mp (Nat.lt_of_le_of_lt (Nat.zero_le k) hk)
  have hfind : items.findIdx (fun item => item.Is X) = k := by
    rw [List.findIdx_eq hk]
    constructor
    · simpa [List.get_eq_getElem] using hfound
    · intro j hj
      simpa [List.get_eq_getElem] using hfirst j hj
  have htake : (items.take k).length = k := by
    rw [List.length_take]
    omega
  have hgc : rss.getChanges (some X) (rss.FetchOutcome.response 200 (some items))
      = if k = 0 then (Except.ok [], some X)
        else (Except.ok ((items.take k).reverse), items.head?) := by
    simp [rss.getChanges, hlen, hfind]
  by_cases hk0 : k = 0
  · subst hk0
    refine ⟨?_, by simp, ?_, ?_⟩
    · rw [hgc]
      simp
    · intro y hy
      simp at hy
    · intro h0
      simp at h0
  · refine ⟨by rw [hgc, if_neg hk0], by simp [htake], ?_, fun _ => by rw [hgc, if_neg hk0]⟩
    intro y hy
    rw [List.getLast?_reverse, List.head?_take, if_neg hk0] at hy
    have h0 : 0 < items.length := Nat.lt_of_le_of_lt (Nat.zero_le k) hk
    rw [List.head?_eq_getElem?, List.getElem?_eq_getElem h0] at hy
    have hy0 : y = items.get ⟨0, h0⟩ := by
      simpa [List.get_eq_getElem] using hy.symm
    rw [hy0]
    exact hfirst 0 (Nat.pos_of_ne_zero hk0)

/-- Witness for C2: cursor X found at index 1 of a two-item window, so
exactly the one newer item is emitted and the cursor moves to the head. -/
theorem C2_window_dedup_witness :
    (rss.getChanges (some ⟨"tX", "lX", "dX", "cX"⟩)
        (rss.FetchOutcome.response 200
          (some [⟨"ta", "la", "da", "ca"⟩, ⟨"tX", "lX", "dX", "cX"⟩]))).1
      = Except.ok (([⟨"ta", "la", "da", "ca"⟩,
          (⟨"tX", "lX", "dX", "cX"⟩ : rss.Item)].take 1).reverse)
    ∧ (0 < 1 → (rss.getChanges (some ⟨"tX", "lX", "dX", "cX"⟩)
        (rss.FetchOutcome.response 200
          (some [⟨"ta", "la", "da", "ca"⟩, ⟨"tX", "lX", "dX", "cX"⟩]))).2
      = [⟨"ta", "la", "da", "ca"⟩, (⟨"tX", "lX", "dX", "cX"⟩ : rss.Item)].head?) :=
  ⟨(C2_window_dedup ⟨"tX", "lX", "dX", "cX"⟩
      [⟨"ta", "la", "da", "ca"⟩, ⟨"tX", "lX", "dX", "cX"⟩] 1
      (by decide) (by decide) (by decide)).1,
   (C2_window_dedup ⟨"tX", "lX", "dX", "cX"⟩
      [⟨"ta", "la", "da", "ca"⟩, ⟨"tX", "lX", "dX", "cX"⟩] 1
      (by decide) (by decide) (by decide)).2.2.2⟩

/-- Claim C9: for a connected Follower's scheduler loop (both variants),
once the cancellation oracle is set to fire at observation point cv, the
run ends with the channel closed (exactly one close — the goroutine's
single deferred close), and every Result send happens at an observation
point strictly before cv: no Result is sent after cancellation is
observed, whether it is observed between ticks or at a channel-offer
point. -/
theorem C9_cancellation_close (cv seq : Nat) (latest : Option rss.Item)
    (cfirst : couch.FetchOutcome) (cevs : List couch.FetchOutcome)
    (rfirst : rss.FetchOutcome) (revs : List rss.FetchOutcome) :
    ((scheduler.connectRun couch.getChanges (some cv) seq cfirst cevs).2.2
        = scheduler.RunEnd.closed
      ∧ (scheduler.connectRun couch.getChanges (some cv) seq cfirst cevs).1.all
          (fun p => decide (p.1 < cv)) = true)
    ∧ ((scheduler.connectRun rss.getChanges (some cv) latest rfirst revs).2.2
        = scheduler.RunEnd.closed
      ∧ (scheduler.connectRun rss.getChanges (some cv) latest rfirst revs).1.all
          (fun p => decide (p.1 < cv)) = true) := by
  refine ⟨⟨(scheduler.connectRun_cancelled _ _ _ _ _).1, ?_⟩,
          ⟨(scheduler.connectRun_cancelled _ _ _ _ _).1, ?_⟩⟩
  · simp only [List.all_eq_true, decide_eq_true_eq]
    exact fun p hp => (scheduler.connectRun_cancelled _ _ _ _ _).2 p hp
  · simp only [List.all_eq_true, decide_eq_true_eq]
    exact fun p hp => (scheduler.connectRun_cancelled _ _ _ _ _).2 p hp
